import Mathlib

/-!
Verification of the openclaw-agents-backup orchestration engine.

The development shallowly embeds the TypeScript sources:
  - the payload cipher (encryptionService: encryptBuffer, decryptBuffer, decryptFile),
  - the directory synchronizer wrapper (utils: rsyncDirectory),
  - the backup orchestrator (backup: performBackup),
  - the restore orchestrator (restore: performRestore, the variant taking
    confirmAuthOverwrite).

Bytes are Nat values, buffers are List Nat, and external side effects
(randomness, the filesystem, subprocess outcomes) are passed in explicitly as
values or oracle functions, so every definition is executable.
-/

/-! ## Payload cipher (encryptionService.ts)

The cipher uses AES-256-GCM with a PBKDF2-derived key.  AES and SHA-256 are
external library primitives; they are modelled by executable idealizations
that preserve the structure the source relies on: key derivation is a
deterministic function of passphrase and salt, the GCM transform is a
length-preserving involutive keystream XOR for a given key and IV, and the
authentication tag is a 16-byte deterministic function of key, IV and
ciphertext.  The header layout, offsets, length checks and error ordering are
translated directly from the source. -/

def SALT_LENGTH : Nat := 16
def IV_LENGTH : Nat := 16
def AUTH_TAG_LENGTH : Nat := 16

/-- Model of crypto.pbkdf2Sync(password, salt, 100000, 32, sha256):
a deterministic key derived from the passphrase and the salt. -/
def pbkdf2Sync (password : String) (salt : List Nat) : Nat :=
  (password.data.map Char.toNat).foldl (fun a c => a * 131 + c + 1)
    (salt.foldl (fun a b => a * 257 + b + 1) 7)

/-- One keystream byte of the modelled AES-256-GCM transform. -/
def keystreamByte (key : Nat) (iv : List Nat) (i : Nat) : Nat :=
  (key + iv.foldl (fun a b => a * 256 + b) 0 + i * 131) % 256

/-- Model of the GCM encrypt/decrypt transform (cipher.update / final):
byte i is XORed with keystream byte i.  The transform is involutive and
length preserving, as the CTR keystream of GCM is. -/
def gcmTransform (key : Nat) (iv : List Nat) : Nat → List Nat → List Nat
  | _, [] => []
  | i, b :: rest => (b ^^^ keystreamByte key iv i) :: gcmTransform key iv (i + 1) rest

/-- Model of cipher.getAuthTag / decipher.setAuthTag verification data:
a 16-byte tag determined by key, IV and ciphertext. -/
def computeAuthTag (key : Nat) (iv ct : List Nat) : List Nat :=
  (List.range AUTH_TAG_LENGTH).map
    (fun i => (ct.foldl (fun a b => a * 257 + b + 1)
      (key * 65537 + iv.foldl (fun a b => a * 256 + b) 0) + i * 37) % 256)

/-- encryptBuffer(data, password) from encryptionService.ts.  The two
crypto.randomBytes(16) draws are passed in as the salt and iv arguments.
Output layout, as in the source: salt, iv, authTag, ciphertext. -/
def encryptBuffer (data : List Nat) (password : String) (salt iv : List Nat) : List Nat :=
  let key := pbkdf2Sync password salt
  let encrypted := gcmTransform key iv 0 data
  let authTag := computeAuthTag key iv encrypted
  salt ++ iv ++ authTag ++ encrypted

/-- The two failure kinds of decryptBuffer / decryptFile:
the malformed artifact error thrown before parsing, and the
authentication failure thrown by decipher.final(). -/
inductive DecryptError
  /-- Invalid encrypted buffer: too short -/
  | invalidTooShort
  /-- Decryption failed: invalid password or corrupted data -/
  | decryptionFailed
deriving DecidableEq, Repr

/-- decryptBuffer(encrypted, password) from encryptionService.ts.
The header fields are read at the same offsets the source uses:
salt at 0, iv at 16, authTag at 32, ciphertext from 48 on. -/
def decryptBuffer (encrypted : List Nat) (password : String) :
    Except DecryptError (List Nat) :=
  if encrypted.length < SALT_LENGTH + IV_LENGTH + AUTH_TAG_LENGTH then
    .error .invalidTooShort
  else
    let salt := encrypted.take SALT_LENGTH
    let iv := (encrypted.drop SALT_LENGTH).take IV_LENGTH
    let authTag := (encrypted.drop (SALT_LENGTH + IV_LENGTH)).take AUTH_TAG_LENGTH
    let ciphertext := encrypted.drop (SALT_LENGTH + IV_LENGTH + AUTH_TAG_LENGTH)
    let key := pbkdf2Sync password salt
    if authTag = computeAuthTag key iv ciphertext then
      .ok (gcmTransform key iv 0 ciphertext)
    else
      .error .decryptionFailed

/-! ### Basic cipher lemmas -/

/-! ## File variants (encryptionService.ts: decryptFile)

The filesystem is an association list from paths to byte contents; a write
prepends the new entry, a read returns the newest entry for the path.
decryptFile is translated statement by statement in source order, so the
filesystem returned together with a thrown error is the filesystem as it was
at the throw site. -/

abbrev FS := List (String × List Nat)

/-- fs.readFileSync: the newest content stored at a path. -/
def readFileSync (fs : FS) (p : String) : Option (List Nat) :=
  match fs with
  | [] => none
  | (q, c) :: rest => if q = p then some c else readFileSync rest p

/-- fs.writeFileSync: store content at a path. -/
def writeFileSync (fs : FS) (p : String) (content : List Nat) : FS :=
  (p, content) :: fs

/-- The failures decryptFile can throw: the missing input file (readFileSync
throws), the malformed artifact, and the authentication failure. -/
inductive DecryptFileError
  | inputNotFound
  | invalidTooShort
  | decryptionFailed
deriving DecidableEq, Repr

/-- decryptFile(inputPath, outputPath, password) from encryptionService.ts,
over an explicit filesystem.  Returns the filesystem after the call together
with the thrown error, if any.  The source reads the input, checks the header
length, parses salt, iv and tag at the fixed offsets, derives the key,
decrypts, and only then writes the output file; every throw happens before
the write. -/
def decryptFile (fs : FS) (inputPath outputPath : String) (password : String) :
    FS × Option DecryptFileError :=
  match readFileSync fs inputPath with
  | none => (fs, some .inputNotFound)
  | some encrypted =>
    if encrypted.length < SALT_LENGTH + IV_LENGTH + AUTH_TAG_LENGTH then
      (fs, some .invalidTooShort)
    else
      let salt := encrypted.take SALT_LENGTH
      let iv := (encrypted.drop SALT_LENGTH).take IV_LENGTH
      let authTag := (encrypted.drop (SALT_LENGTH + IV_LENGTH)).take AUTH_TAG_LENGTH
      let ciphertext := encrypted.drop (SALT_LENGTH + IV_LENGTH + AUTH_TAG_LENGTH)
      let key := pbkdf2Sync password salt
      if authTag = computeAuthTag key iv ciphertext then
        (writeFileSync fs outputPath (gcmTransform key iv 0 ciphertext), none)
      else
        (fs, some .decryptionFailed)

/-! ## Directory synchronizer (utils.ts: rsyncDirectory)

A directory tree is an association list from entry paths to entry data (the
bytes together with the attributes rsync --archive preserves, abstracted as a
byte list); lookup returns the newest entry.  The external rsync binary is
excluded from the repository; per the interface contract its preview mode
reports the differing entries and its mutating mode with delete-extraneous
semantics makes the destination identical to the source.
Modelled from the spec: the tree mirror primitive of section 6 (non-mutating
preview mode; mutating mode with delete-extraneous, attribute-preserving
semantics).  The two-pass orchestration around it (dry run first, early
return false on empty output, mirror pass otherwise) is translated from
rsyncDirectory in utils.ts. -/

abbrev DirTree := List (String × List Nat)

/-- The entry stored at a path of a tree. -/
def lookupT (t : DirTree) (p : String) : Option (List Nat) :=
  match t with
  | [] => none
  | (q, c) :: rest => if q = p then some c else lookupT rest p

/-- Two trees hold the same entries at every path. -/
def TreeIdentical (src dst : DirTree) : Prop :=
  ∀ p, lookupT dst p = lookupT src p

/-- The dry-run difference report: source entries whose destination copy
differs, then destination entries absent from the source (the entries
--delete would remove). -/
def rsyncDryRun (src dst : DirTree) : List String :=
  (src.map Prod.fst).filter (fun p => decide (lookupT dst p ≠ lookupT src p)) ++
  (dst.map Prod.fst).filter (fun p => decide (lookupT src p = none))

/-- rsyncDirectory(source, destination) from utils.ts: run the dry-run pass;
if its output is empty return false without touching the destination,
otherwise run the mirror pass (after which the destination holds exactly the
source entries) and return true.  The returned pair is the changed flag and
the resulting destination tree. -/
def rsyncDirectory (src dst : DirTree) : Bool × DirTree :=
  if rsyncDryRun src dst = [] then (false, dst) else (true, src)

/-! ## Backup orchestrator (backup.ts: performBackup)

Agent bindings and run results follow types.ts.  External effects of a run
(config and repository presence, the environment passphrase, the agent roster
subprocess, the per-agent filesystem operations and the git commit) are
supplied as an explicit world.  A per-agent world gives the outcome of each
side-effecting step of the loop body: the metadata write, the two rsync
calls, the file walk of the archived agentDir (findAllFiles) and the
per-file encryption outcomes. -/

structure AgentBinding where
  id : String
  identityName : String
  identityEmoji : String
  identitySource : String
  workspace : String
  agentDir : String
  model : String
  bindings : Nat
  isDefault : Bool
  routes : List String
deriving DecidableEq, Repr

/-- validateAgentBinding from agentLister.ts: id, workspace and agentDir must
be present and truthy; a missing or empty field is modelled as the empty
string. -/
def validateAgentBinding (agent : AgentBinding) : Bool :=
  agent.id != "" && agent.workspace != "" && agent.agentDir != ""

structure BackupChange where
  agentId : String
  workspaceChanged : Bool
  agentDirChanged : Bool
  error : Option String
deriving DecidableEq, Repr

structure BackupResult where
  success : Bool
  message : String
  agentsProcessed : Nat
  changes : List BackupChange
  error : Option String
deriving DecidableEq, Repr

/-- Outcomes of the side-effecting steps of one iteration of the per-agent
backup loop: writeJsonFile of the metadata (the write throws or succeeds; a
success always stores a fresh backedUpAt), the two rsyncDirectory calls
(throw, or return the changed flag), the findAllFiles walk of the archived
agentDir, and the per-file encryptFile outcome. -/
structure AgentWorld where
  metadataWriteErr : Option String
  workspaceSync : Except String Bool
  agentDirSync : Except String Bool
  files : List String
  encryptErr : String → Option String

/-- The encryption walk of the per-agent loop: files already carrying the
.enc suffix are skipped; the first failing encryptFile call aborts the walk.
The inner catch records a Failed-to-encrypt message and rethrows the original
error, which the outer catch then stores, so the value recorded on the change
record is the original error. -/
def encryptAgentFiles (encryptErr : String → Option String) : List String → Option String
  | [] => none
  | f :: rest =>
    if f.endsWith ".enc" then encryptAgentFiles encryptErr rest
    else
      match encryptErr f with
      | some e => some e
      | none => encryptAgentFiles encryptErr rest

/-- The try/catch body of the per-agent loop of performBackup: the change
record starts with both flags false, each step updates it, and the first
throw is caught with the error stored on the record; in every case exactly
one record is produced. -/
def processAgent (agent : AgentBinding) (aw : AgentWorld) : BackupChange :=
  match aw.metadataWriteErr with
  | some e =>
    { agentId := agent.id, workspaceChanged := false, agentDirChanged := false,
      error := some e }
  | none =>
    match aw.workspaceSync with
    | .error e =>
      { agentId := agent.id, workspaceChanged := false, agentDirChanged := false,
        error := some e }
    | .ok wc =>
      match aw.agentDirSync with
      | .error e =>
        { agentId := agent.id, workspaceChanged := wc, agentDirChanged := false,
          error := some e }
      | .ok ac =>
        match encryptAgentFiles aw.encryptErr aw.files with
        | some e =>
          { agentId := agent.id, workspaceChanged := wc, agentDirChanged := ac,
            error := some e }
        | none =>
          { agentId := agent.id, workspaceChanged := wc, agentDirChanged := ac,
            error := none }

/-- Whether any step of the per-agent world fails, stated independently of
the order processAgent runs the steps in. -/
def agentHasFailure (aw : AgentWorld) : Bool :=
  aw.metadataWriteErr.isSome ||
  (match aw.workspaceSync with | .error _ => true | .ok _ => false) ||
  (match aw.agentDirSync with | .error _ => true | .ok _ => false) ||
  (encryptAgentFiles aw.encryptErr aw.files).isSome

/-- The external world of one performBackup run. -/
structure BackupWorld where
  configExists : Bool
  backupRepoPath : String
  repoExists : Bool
  password : Option String
  agentsResult : Except String (List AgentBinding)
  perAgent : String → AgentWorld
  commitErr : Option String

/-- performBackup(workspacePath) from backup.ts over an explicit world:
precondition checks in source order, roster discovery and validation
filtering, the per-agent loop, then the single git commit, whose failure
yields the distinct commit-failure result. -/
def performBackup (w : BackupWorld) : BackupResult :=
  if !w.configExists then
    { success := false, message := "Backup config not found at .backupconfig.json",
      agentsProcessed := 0, changes := [], error := some "Missing .backupconfig.json" }
  else if !w.repoExists then
    { success := false,
      message := "Backup repository not found at " ++ w.backupRepoPath,
      agentsProcessed := 0, changes := [], error := some "Backup repo not initialized" }
  else
    match w.password with
    | none =>
      { success := false, message := "Backup encryption password not set",
        agentsProcessed := 0, changes := [],
        error := some "Missing BACKUP_ENCRYPTION_PASSWORD environment variable" }
    | some _ =>
      match w.agentsResult with
      | .error e =>
        { success := false, message := "Backup failed", agentsProcessed := 0,
          changes := [], error := some e }
      | .ok agents =>
        let validAgents := agents.filter validateAgentBinding
        let changes := validAgents.map (fun a => processAgent a (w.perAgent a.id))
        match w.commitErr with
        | some e =>
          { success := false, message := "Backup completed but git commit failed",
            agentsProcessed := validAgents.length, changes := changes,
            error := some e }
        | none =>
          { success := true,
            message := "Backed up " ++ toString validAgents.length ++
              " agents. Changes: " ++ toString (changes.filter
                (fun c => c.workspaceChanged || c.agentDirChanged)).length,
            agentsProcessed := validAgents.length, changes := changes,
            error := none }

def sampleAgentGood : AgentBinding :=
  { id := "main", identityName := "identity-main", identityEmoji := "e",
    identitySource := "identity", workspace := "/root/workspace-main",
    agentDir := "/root/agents/main/agent", model := "m", bindings := 0,
    isDefault := true, routes := [] }

def sampleAgentBad : AgentBinding :=
  { id := "bad", identityName := "identity-bad", identityEmoji := "e",
    identitySource := "identity", workspace := "/root/workspace-bad",
    agentDir := "/root/agents/bad/agent", model := "m", bindings := 0,
    isDefault := false, routes := [] }

def sampleAgentInvalid : AgentBinding :=
  { id := "broken", identityName := "identity-broken", identityEmoji := "e",
    identitySource := "identity", workspace := "/root/workspace-broken",
    agentDir := "", model := "m", bindings := 0, isDefault := false, routes := [] }

def sampleAgentWorldOk : AgentWorld :=
  { metadataWriteErr := none, workspaceSync := .ok true, agentDirSync := .ok false,
    files := ["session.jsonl"], encryptErr := fun _ => none }

def sampleAgentWorldBad : AgentWorld :=
  { metadataWriteErr := none, workspaceSync := .error "Rsync failed",
    agentDirSync := .ok false, files := [], encryptErr := fun _ => none }

def sampleBackupWorld : BackupWorld :=
  { configExists := true, backupRepoPath := "/repo", repoExists := true,
    password := some "pw",
    agentsResult := .ok [sampleAgentGood, sampleAgentBad, sampleAgentInvalid],
    perAgent := fun id => if id = "bad" then sampleAgentWorldBad else sampleAgentWorldOk,
    commitErr := none }

def sampleBackupWorldCommitFail : BackupWorld :=
  { sampleBackupWorld with commitErr := some "git commit exited 1" }

/-! ## Restore orchestrator (restore.ts: performRestore, the variant taking
confirmAuthOverwrite)

The restore run is embedded with an explicit trace of the tree mirror
operations it performs: every executed rsyncDirectory call appends a
MirrorOp recording its source subtree and its destination path.  The
per-agent external facts (the metadata read, the existence checks, the
findEncryptedFiles walk, the per-file decryptFile outcomes, the presence of
the decrypted agent/auth-profiles.json, and the rsync outcomes) are supplied
as an ArchiveAgent record per directory listed under archives/. -/

structure AgentArchiveMetadata where
  id : String
  identityName : String
  identityEmoji : String
  identitySource : String
  workspace : String
  agentDir : String
  model : String
  bindings : Nat
  isDefault : Bool
  routes : List String
  backedUpAt : String
deriving DecidableEq, Repr

structure RestoreResult where
  success : Bool
  message : String
  agentsRestored : Nat
  error : Option String
  authOverwriteWarning : Option Bool
deriving DecidableEq, Repr

/-- One executed tree mirror: the archive subtree it reads and the
destination path it writes. -/
structure MirrorOp where
  src : String
  dest : String
deriving DecidableEq, Repr

/-- The external facts of one agent directory under archives/ during a
restore run. -/
structure ArchiveAgent where
  dirName : String
  metadata : Except String AgentArchiveMetadata
  workspaceExists : Bool
  agentDirExists : Bool
  encryptedFiles : List String
  decryptErr : String → Option String
  hasAuthProfiles : Bool
  workspaceSyncErr : Option String
  agentDirSyncErr : Option String

/-- Outcome of one iteration of the per-agent restore loop: completed (its
executed mirror ops), threw an error caught by the loop (the ops executed
before the throw), or hit the auth-profiles guard, which returns from the
whole function. -/
inductive AgentStep
  | ok (ops : List MirrorOp)
  | err (msg : String) (ops : List MirrorOp)
  | authAbort (ops : List MirrorOp)

def AgentStep.ops : AgentStep → List MirrorOp
  | .ok o => o
  | .err _ o => o
  | .authAbort o => o

/-- The decryption walk over findEncryptedFiles: the first failing
decryptFile call throws the Failed-to-decrypt error. -/
def decryptAgentFiles (decryptErr : String → Option String) :
    List String → Option String
  | [] => none
  | f :: rest =>
    match decryptErr f with
    | some e => some ("Failed to decrypt " ++ f ++ ": " ++ e)
    | none => decryptAgentFiles decryptErr rest

/-- The agentDir half of the loop body: decrypt the encrypted files, check
the auth-profiles guard, then mirror the archived agentDir subtree to the
agentDir path of the metadata. -/
def restoreAgentDir (confirm : Bool) (a : ArchiveAgent) (m : AgentArchiveMetadata)
    (ops : List MirrorOp) : AgentStep :=
  if a.agentDirExists then
    match decryptAgentFiles a.decryptErr a.encryptedFiles with
    | some e => .err e ops
    | none =>
      if a.hasAuthProfiles && !confirm then .authAbort ops
      else
        match a.agentDirSyncErr with
        | some e => .err e ops
        | none =>
          .ok (ops ++ [MirrorOp.mk ("archives/" ++ a.dirName ++ "/agentDir") m.agentDir])
  else .ok ops

/-- The try block of one iteration of the per-agent restore loop: read the
metadata, mirror the archived workspace subtree to the workspace path of the
metadata if present, then handle the agentDir subtree. -/
def restoreAgent (confirm : Bool) (a : ArchiveAgent) : AgentStep :=
  match a.metadata with
  | .error e => .err e []
  | .ok m =>
    if a.workspaceExists then
      match a.workspaceSyncErr with
      | some e => .err e []
      | none =>
        restoreAgentDir confirm a m
          [MirrorOp.mk ("archives/" ++ a.dirName ++ "/workspace") m.workspace]
    else restoreAgentDir confirm a m []

/-- Whether the loop iteration for this agent hits the auth-profiles guard. -/
def agentAborts (confirm : Bool) (a : ArchiveAgent) : Bool :=
  match restoreAgent confirm a with
  | .authAbort _ => true
  | _ => false

/-- The early-return result of the auth-profiles guard, as built in the
source: reported agentsRestored is zero and the warning flag is set. -/
def authWarnResult : RestoreResult :=
  { success := false,
    message := "Backup contains sensitive auth-profiles.json (API tokens). Use --confirm-auth-overwrite to proceed.",
    agentsRestored := 0, error := none, authOverwriteWarning := some true }

/-- The per-agent loop of performRestore: Sum.inl is the early return of the
auth-profiles guard (with the trace up to and including the triggering
iteration); Sum.inr is the completed loop with the restored count, the
collected error list and the full trace. -/
def restoreLoop (confirm : Bool) : List ArchiveAgent → Nat → List String →
    List MirrorOp → Sum (RestoreResult × List MirrorOp) (Nat × List String × List MirrorOp)
  | [], restored, errors, ops => .inr (restored, errors, ops)
  | a :: rest, restored, errors, ops =>
    match restoreAgent confirm a with
    | .ok aops => restoreLoop confirm rest (restored + 1) errors (ops ++ aops)
    | .err e aops =>
      restoreLoop confirm rest restored
        (errors ++ ["Agent " ++ a.dirName ++ ": " ++ e]) (ops ++ aops)
    | .authAbort aops => .inl (authWarnResult, ops ++ aops)

/-- The trace of mirror operations of a loop outcome. -/
def loopTrace :
    Sum (RestoreResult × List MirrorOp) (Nat × List String × List MirrorOp) →
      List MirrorOp
  | .inl (_, t) => t
  | .inr (_, _, t) => t

/-- The external world of one performRestore run. -/
structure RestoreWorld where
  backupRepoPath : String
  repoExists : Bool
  archivesExists : Bool
  password : Option String
  agents : List ArchiveAgent

/-- performRestore(backupRepoPath, targetSha, workspacePath,
confirmAuthOverwrite) from restore.ts over an explicit world: precondition
checks in source order (the targetSha argument only triggers a warning log
and the workspacePath argument is unused, as in the source), then the
per-agent loop, then the aggregation of the error list.  Returns the run
result together with the trace of executed mirror operations. -/
def performRestore (w : RestoreWorld) (targetSha : Option String)
    (workspacePath : String) (confirmAuthOverwrite : Bool) :
    RestoreResult × List MirrorOp :=
  if !w.repoExists then
    ({ success := false,
       message := "Backup repository not found at " ++ w.backupRepoPath,
       agentsRestored := 0, error := some "Backup repo not found",
       authOverwriteWarning := none }, [])
  else if !w.archivesExists then
    ({ success := false,
       message := "Archives directory not found in backup repository",
       agentsRestored := 0, error := some "No archives found",
       authOverwriteWarning := none }, [])
  else
    match w.password with
    | none =>
      ({ success := false, message := "Backup encryption password not set",
         agentsRestored := 0,
         error := some "Missing BACKUP_ENCRYPTION_PASSWORD environment variable",
         authOverwriteWarning := none }, [])
    | some _ =>
      match restoreLoop confirmAuthOverwrite w.agents 0 [] [] with
      | .inl r => r
      | .inr (restored, errors, ops) =>
        if errors = [] then
          ({ success := true,
             message := "Successfully restored " ++ toString restored ++ " agents",
             agentsRestored := restored, error := none,
             authOverwriteWarning := none }, ops)
        else
          ({ success := false,
             message := "Restored " ++ toString restored ++ " agents with errors",
             agentsRestored := restored,
             error := some (String.intercalate "\n" errors),
             authOverwriteWarning := none }, ops)

def metaClean : AgentArchiveMetadata :=
  { id := "clean", identityName := "identity-clean", identityEmoji := "e",
    identitySource := "identity", workspace := "/dest/clean-w",
    agentDir := "/dest/clean-a", model := "m", bindings := 0, isDefault := true,
    routes := [], backedUpAt := "2026-01-01T00:00:00.000Z" }

def metaAuth : AgentArchiveMetadata :=
  { id := "auth", identityName := "identity-auth", identityEmoji := "e",
    identitySource := "identity", workspace := "/dest/auth-w",
    agentDir := "/dest/auth-a", model := "m", bindings := 0, isDefault := false,
    routes := [], backedUpAt := "2026-01-01T00:00:00.000Z" }

def metaPost : AgentArchiveMetadata :=
  { id := "later", identityName := "identity-later", identityEmoji := "e",
    identitySource := "identity", workspace := "/dest/later-w",
    agentDir := "/dest/later-a", model := "m", bindings := 0, isDefault := false,
    routes := [], backedUpAt := "2026-01-01T00:00:00.000Z" }

/-- An archived agent with no auth-profiles.json, restored in full. -/
def agentClean : ArchiveAgent :=
  { dirName := "clean", metadata := .ok metaClean, workspaceExists := true,
    agentDirExists := true, encryptedFiles := [], decryptErr := fun _ => none,
    hasAuthProfiles := false, workspaceSyncErr := none, agentDirSyncErr := none }

/-- An archived agent whose decrypted agentDir holds agent/auth-profiles.json. -/
def agentAuth : ArchiveAgent :=
  { dirName := "auth", metadata := .ok metaAuth, workspaceExists := true,
    agentDirExists := true, encryptedFiles := [], decryptErr := fun _ => none,
    hasAuthProfiles := true, workspaceSyncErr := none, agentDirSyncErr := none }

/-- An archived agent listed after the triggering one. -/
def agentPost : ArchiveAgent :=
  { dirName := "later", metadata := .ok metaPost, workspaceExists := true,
    agentDirExists := true, encryptedFiles := [], decryptErr := fun _ => none,
    hasAuthProfiles := false, workspaceSyncErr := none, agentDirSyncErr := none }

/-- A restore world whose second agent carries auth-profiles.json. -/
def cexRestoreWorld : RestoreWorld :=
  { backupRepoPath := "/repo", repoExists := true, archivesExists := true,
    password := some "pw", agents := [agentClean, agentAuth, agentPost] }

/-! ## Properties -/

theorem gcmTransform_length (key : Nat) (iv : List Nat) (i : Nat) (data : List Nat) :
    (gcmTransform key iv i data).length = data.length := by
  induction data generalizing i with
  | nil => rfl
  | cons b rest ih => simp [gcmTransform, ih]

theorem gcmTransform_involutive (key : Nat) (iv : List Nat) (i : Nat) (data : List Nat) :
    gcmTransform key iv i (gcmTransform key iv i data) = data := by
  induction data generalizing i with
  | nil => rfl
  | cons b rest ih =>
    simp only [gcmTransform, ih]
    rw [Nat.xor_assoc, Nat.xor_self, Nat.xor_zero]

theorem computeAuthTag_length (key : Nat) (iv ct : List Nat) :
    (computeAuthTag key iv ct).length = AUTH_TAG_LENGTH := by
  simp [computeAuthTag]

theorem encryptBuffer_parse (data : List Nat) (password : String) (salt iv : List Nat)
    (hs : salt.length = SALT_LENGTH) (hi : iv.length = IV_LENGTH) :
    (encryptBuffer data password salt iv).take SALT_LENGTH = salt ∧
    ((encryptBuffer data password salt iv).drop SALT_LENGTH).take IV_LENGTH = iv ∧
    ((encryptBuffer data password salt iv).drop (SALT_LENGTH + IV_LENGTH)).take
      AUTH_TAG_LENGTH =
      computeAuthTag (pbkdf2Sync password salt) iv
        (gcmTransform (pbkdf2Sync password salt) iv 0 data) ∧
    (encryptBuffer data password salt iv).drop
      (SALT_LENGTH + IV_LENGTH + AUTH_TAG_LENGTH) =
      gcmTransform (pbkdf2Sync password salt) iv 0 data := by
  simp only [encryptBuffer]
  refine ⟨?_, ?_, ?_, ?_⟩
  · rw [List.append_assoc, List.append_assoc]
    exact List.take_left' hs
  · rw [List.append_assoc, List.append_assoc, List.drop_left' hs]
    exact List.take_left' hi
  · rw [List.append_assoc, List.drop_left' (show (salt ++ iv).length =
      SALT_LENGTH + IV_LENGTH by simp [hs, hi])]
    exact List.take_left' (computeAuthTag_length _ _ _)
  · exact List.drop_left' (by simp [hs, hi, computeAuthTag_length]; omega)

theorem encryptBuffer_length (data : List Nat) (password : String) (salt iv : List Nat)
    (hs : salt.length = SALT_LENGTH) (hi : iv.length = IV_LENGTH) :
    (encryptBuffer data password salt iv).length =
      data.length + (SALT_LENGTH + IV_LENGTH + AUTH_TAG_LENGTH) := by
  simp [encryptBuffer, hs, hi, computeAuthTag_length, gcmTransform_length,
    SALT_LENGTH, IV_LENGTH, AUTH_TAG_LENGTH]
  omega

theorem decrypt_encrypt_aux (data : List Nat) (password : String)
    (salt iv : List Nat) (hs : salt.length = SALT_LENGTH) (hi : iv.length = IV_LENGTH) :
    decryptBuffer (encryptBuffer data password salt iv) password = .ok data := by
  obtain ⟨h1, h2, h3, h4⟩ := encryptBuffer_parse data password salt iv hs hi
  have hlen := encryptBuffer_length data password salt iv hs hi
  unfold decryptBuffer
  rw [if_neg (by omega)]
  simp only [h1, h2, h3, h4, gcmTransform_involutive]
  simp

/-- C3: for every plaintext byte sequence P (the empty one included) and
every passphrase K, decrypting the encryption of P under K with the same K
returns exactly P.  The two random draws of the encryption call are the salt
and iv arguments, constrained to their source lengths. -/
theorem decryptBuffer_encryptBuffer_roundtrip (data : List Nat) (password : String)
    (salt iv : List Nat) (hs : salt.length = SALT_LENGTH) (hi : iv.length = IV_LENGTH) :
    decryptBuffer (encryptBuffer data password salt iv) password = .ok data :=
  decrypt_encrypt_aux data password salt iv hs hi

/-- Witness for C3 at a concrete plaintext, passphrase, salt and iv
(and at the empty plaintext). -/
theorem decryptBuffer_encryptBuffer_roundtrip_witness :
    decryptBuffer
      (encryptBuffer [7, 200, 13] "pw" (List.replicate 16 1) (List.replicate 16 2))
      "pw" = .ok [7, 200, 13] ∧
    decryptBuffer
      (encryptBuffer [] "pw" (List.replicate 16 1) (List.replicate 16 2))
      "pw" = .ok [] :=
  ⟨decryptBuffer_encryptBuffer_roundtrip [7, 200, 13] "pw"
      (List.replicate 16 1) (List.replicate 16 2) (by decide) (by decide),
   decryptBuffer_encryptBuffer_roundtrip [] "pw"
      (List.replicate 16 1) (List.replicate 16 2) (by decide) (by decide)⟩

/-- C4: decryptBuffer fails with the malformed-artifact kind exactly when the
input is shorter than the 48-byte header; with the header present it fails
with the authentication-failure kind whenever the embedded tag does not match
the tag recomputed from the derived key, the embedded iv and the embedded
ciphertext (covering wrong passphrase and bit corruption alike); and it
returns a plaintext only when that tag does verify, the plaintext being the
authentic decryption of the embedded ciphertext. -/
theorem decryptBuffer_error_kinds (encrypted : List Nat) (password : String) :
    (encrypted.length < SALT_LENGTH + IV_LENGTH + AUTH_TAG_LENGTH →
      decryptBuffer encrypted password = .error .invalidTooShort) ∧
    (SALT_LENGTH + IV_LENGTH + AUTH_TAG_LENGTH ≤ encrypted.length →
      (encrypted.drop (SALT_LENGTH + IV_LENGTH)).take AUTH_TAG_LENGTH ≠
        computeAuthTag (pbkdf2Sync password (encrypted.take SALT_LENGTH))
          ((encrypted.drop SALT_LENGTH).take IV_LENGTH)
          (encrypted.drop (SALT_LENGTH + IV_LENGTH + AUTH_TAG_LENGTH)) →
      decryptBuffer encrypted password = .error .decryptionFailed) ∧
    (∀ pt, decryptBuffer encrypted password = .ok pt →
      (encrypted.drop (SALT_LENGTH + IV_LENGTH)).take AUTH_TAG_LENGTH =
        computeAuthTag (pbkdf2Sync password (encrypted.take SALT_LENGTH))
          ((encrypted.drop SALT_LENGTH).take IV_LENGTH)
          (encrypted.drop (SALT_LENGTH + IV_LENGTH + AUTH_TAG_LENGTH)) ∧
      pt = gcmTransform (pbkdf2Sync password (encrypted.take SALT_LENGTH))
          ((encrypted.drop SALT_LENGTH).take IV_LENGTH) 0
          (encrypted.drop (SALT_LENGTH + IV_LENGTH + AUTH_TAG_LENGTH))) := by
  refine ⟨?_, ?_, ?_⟩
  · intro h
    simp only [decryptBuffer]
    rw [if_pos h]
  · intro hlen hne
    simp only [decryptBuffer]
    rw [if_neg (by omega), if_neg hne]
  · intro pt h
    simp only [decryptBuffer] at h
    split at h
    · exact absurd h (by simp)
    · split at h
      next heq =>
        refine ⟨heq, ?_⟩
        injection h with h2
        exact h2.symm
      · exact absurd h (by simp)

/-- Witness for C4: a 10-byte artifact fails as malformed, and a 48-byte
all-zero artifact (header present, tag not verifying) fails as an
authentication failure; a well-formed artifact decrypts to the authentic
plaintext. -/
theorem decryptBuffer_error_kinds_witness :
    decryptBuffer (List.replicate 10 0) "pw" = .error .invalidTooShort ∧
    decryptBuffer (List.replicate 48 0) "pw" = .error .decryptionFailed :=
  ⟨(decryptBuffer_error_kinds (List.replicate 10 0) "pw").1 (by decide),
   (decryptBuffer_error_kinds (List.replicate 48 0) "pw").2.1 (by decide) (by decide)⟩

/-- C8: every artifact produced by encryptBuffer is the byte concatenation
of the 16-byte salt, the 16-byte iv, the 16-byte authentication tag and a
ciphertext exactly as long as the plaintext, so its total length is the
plaintext length plus 48, and the take/drop expressions decryptBuffer uses
to parse the header recover those fields at the fixed offsets 0, 16, 32
and 48. -/
theorem encryptBuffer_wire_layout (data : List Nat) (password : String)
    (salt iv : List Nat) (hs : salt.length = SALT_LENGTH) (hi : iv.length = IV_LENGTH) :
    ∃ tag ct, encryptBuffer data password salt iv = salt ++ iv ++ tag ++ ct ∧
      tag.length = 16 ∧ ct.length = data.length ∧
      (encryptBuffer data password salt iv).length = data.length + 48 ∧
      (encryptBuffer data password salt iv).take SALT_LENGTH = salt ∧
      ((encryptBuffer data password salt iv).drop SALT_LENGTH).take IV_LENGTH = iv ∧
      ((encryptBuffer data password salt iv).drop
        (SALT_LENGTH + IV_LENGTH)).take AUTH_TAG_LENGTH = tag ∧
      (encryptBuffer data password salt iv).drop
        (SALT_LENGTH + IV_LENGTH + AUTH_TAG_LENGTH) = ct := by
  obtain ⟨h1, h2, h3, h4⟩ := encryptBuffer_parse data password salt iv hs hi
  have hlen := encryptBuffer_length data password salt iv hs hi
  refine ⟨computeAuthTag (pbkdf2Sync password salt) iv
      (gcmTransform (pbkdf2Sync password salt) iv 0 data),
    gcmTransform (pbkdf2Sync password salt) iv 0 data,
    rfl, computeAuthTag_length _ _ _, gcmTransform_length _ _ _ _, ?_, h1, h2, h3, h4⟩
  rw [hlen]
  rfl

/-- Witness for C8 at a concrete plaintext, passphrase, salt and iv. -/
theorem encryptBuffer_wire_layout_witness :
    ∃ tag ct,
      encryptBuffer [9, 9] "k" (List.replicate 16 3) (List.replicate 16 4) =
        List.replicate 16 3 ++ List.replicate 16 4 ++ tag ++ ct ∧
      tag.length = 16 ∧ ct.length = ([9, 9] : List Nat).length ∧
      (encryptBuffer [9, 9] "k" (List.replicate 16 3) (List.replicate 16 4)).length =
        ([9, 9] : List Nat).length + 48 ∧
      (encryptBuffer [9, 9] "k" (List.replicate 16 3)
        (List.replicate 16 4)).take SALT_LENGTH = List.replicate 16 3 ∧
      ((encryptBuffer [9, 9] "k" (List.replicate 16 3)
        (List.replicate 16 4)).drop SALT_LENGTH).take IV_LENGTH = List.replicate 16 4 ∧
      ((encryptBuffer [9, 9] "k" (List.replicate 16 3)
        (List.replicate 16 4)).drop (SALT_LENGTH + IV_LENGTH)).take AUTH_TAG_LENGTH = tag ∧
      (encryptBuffer [9, 9] "k" (List.replicate 16 3)
        (List.replicate 16 4)).drop (SALT_LENGTH + IV_LENGTH + AUTH_TAG_LENGTH) = ct :=
  encryptBuffer_wire_layout [9, 9] "k" (List.replicate 16 3) (List.replicate 16 4)
    (by decide) (by decide)

/-- C9: two calls to encryptBuffer on the same plaintext and passphrase whose
fresh random draws differ (different salt or different iv) produce different
artifacts, and both artifacts decrypt back to the plaintext under the same
passphrase. -/
theorem encryptBuffer_fresh_randomness (data : List Nat) (password : String)
    (salt1 iv1 salt2 iv2 : List Nat)
    (hs1 : salt1.length = SALT_LENGTH) (hi1 : iv1.length = IV_LENGTH)
    (hs2 : salt2.length = SALT_LENGTH) (hi2 : iv2.length = IV_LENGTH)
    (hne : salt1 ≠ salt2 ∨ iv1 ≠ iv2) :
    encryptBuffer data password salt1 iv1 ≠ encryptBuffer data password salt2 iv2 ∧
    decryptBuffer (encryptBuffer data password salt1 iv1) password = .ok data ∧
    decryptBuffer (encryptBuffer data password salt2 iv2) password = .ok data := by
  refine ⟨?_, decrypt_encrypt_aux data password salt1 iv1 hs1 hi1,
    decrypt_encrypt_aux data password salt2 iv2 hs2 hi2⟩
  intro heq
  obtain ⟨p1, p2, _, _⟩ := encryptBuffer_parse data password salt1 iv1 hs1 hi1
  obtain ⟨q1, q2, _, _⟩ := encryptBuffer_parse data password salt2 iv2 hs2 hi2
  rw [heq] at p1 p2
  rcases hne with h | h
  · exact h (p1.symm.trans q1)
  · exact h (p2.symm.trans q2)

/-- Witness for C9: two concrete calls differing only in the iv draw. -/
theorem encryptBuffer_fresh_randomness_witness :
    encryptBuffer [1] "pw" (List.replicate 16 0) (List.replicate 16 1) ≠
      encryptBuffer [1] "pw" (List.replicate 16 0) (List.replicate 16 2) ∧
    decryptBuffer (encryptBuffer [1] "pw" (List.replicate 16 0)
      (List.replicate 16 1)) "pw" = .ok [1] ∧
    decryptBuffer (encryptBuffer [1] "pw" (List.replicate 16 0)
      (List.replicate 16 2)) "pw" = .ok [1] :=
  encryptBuffer_fresh_randomness [1] "pw" (List.replicate 16 0) (List.replicate 16 1)
    (List.replicate 16 0) (List.replicate 16 2)
    (by decide) (by decide) (by decide) (by decide) (Or.inr (by decide))

/-- C10: decryptFile writes the output file only after the whole artifact has
been decrypted and authenticated; on any failure the returned filesystem is
exactly the input filesystem, so the output path is neither created nor
modified, and on success the only change is the output path now holding the
plaintext that decryptBuffer would return for the artifact. -/
theorem decryptFile_atomic (fs : FS) (inputPath outputPath password : String) :
    (∀ e, (decryptFile fs inputPath outputPath password).2 = some e →
      (decryptFile fs inputPath outputPath password).1 = fs) ∧
    ((decryptFile fs inputPath outputPath password).2 = none →
      ∃ encrypted pt, readFileSync fs inputPath = some encrypted ∧
        decryptBuffer encrypted password = .ok pt ∧
        (decryptFile fs inputPath outputPath password).1 =
          writeFileSync fs outputPath pt ∧
        readFileSync (decryptFile fs inputPath outputPath password).1 outputPath =
          some pt) := by
  simp only [decryptFile]
  constructor
  · intro e
    split
    · intro _
      rfl
    · split
      · intro _
        rfl
      · split
        · intro h
          exact absurd h (by simp)
        · intro _
          rfl
  · split
    · intro h
      exact absurd h (by simp)
    next encrypted henc =>
      split
      · intro h
        exact absurd h (by simp)
      next hlen =>
        split
        next htag =>
          intro _
          refine ⟨encrypted, _, henc, ?_, rfl, ?_⟩
          · simp only [decryptBuffer]
            rw [if_neg hlen, if_pos htag]
          · simp [readFileSync, writeFileSync]
        · intro h
          exact absurd h (by simp)

/-- Witness for C10: a failed decryption of a malformed artifact leaves the
concrete filesystem unchanged, and a successful decryption writes the
round-tripped plaintext. -/
theorem decryptFile_atomic_witness :
    (decryptFile [("in.enc", List.replicate 10 0)] "in.enc" "out" "pw").1 =
      [("in.enc", List.replicate 10 0)] ∧
    ∃ encrypted pt,
      readFileSync [("good.enc",
        encryptBuffer [5] "pw" (List.replicate 16 1) (List.replicate 16 2))]
        "good.enc" = some encrypted ∧
      decryptBuffer encrypted "pw" = .ok pt ∧
      (decryptFile [("good.enc",
        encryptBuffer [5] "pw" (List.replicate 16 1) (List.replicate 16 2))]
        "good.enc" "out" "pw").1 =
        writeFileSync [("good.enc",
          encryptBuffer [5] "pw" (List.replicate 16 1) (List.replicate 16 2))]
          "out" pt ∧
      readFileSync (decryptFile [("good.enc",
        encryptBuffer [5] "pw" (List.replicate 16 1) (List.replicate 16 2))]
        "good.enc" "out" "pw").1 "out" = some pt :=
  ⟨(decryptFile_atomic [("in.enc", List.replicate 10 0)] "in.enc" "out" "pw").1
      DecryptFileError.invalidTooShort (by decide),
   (decryptFile_atomic [("good.enc",
      encryptBuffer [5] "pw" (List.replicate 16 1) (List.replicate 16 2))]
      "good.enc" "out" "pw").2 (by decide)⟩

theorem lookupT_isSome_iff (t : DirTree) (p : String) :
    (lookupT t p).isSome = true ↔ p ∈ t.map Prod.fst := by
  induction t with
  | nil => simp [lookupT]
  | cons e rest ih =>
    obtain ⟨q, c⟩ := e
    by_cases h : q = p
    · subst h
      simp [lookupT]
    · rw [lookupT, if_neg h, List.map_cons, List.mem_cons, ih]
      constructor
      · exact Or.inr
      · rintro (hpq | hmem)
        · exact absurd hpq.symm h
        · exact hmem

theorem rsyncDryRun_nil_iff (src dst : DirTree) :
    rsyncDryRun src dst = [] ↔ TreeIdentical src dst := by
  constructor
  · intro h p
    rw [rsyncDryRun, List.append_eq_nil] at h
    obtain ⟨h1, h2⟩ := h
    rw [List.filter_eq_nil_iff] at h1 h2
    by_cases hs : p ∈ src.map Prod.fst
    · by_contra hne
      exact absurd (decide_eq_true (fun hc : lookupT dst p = lookupT src p => hne hc))
        (by simpa using h1 p hs)
    · have hsrc : lookupT src p = none := by
        cases hl : lookupT src p with
        | none => rfl
        | some c =>
          exact absurd ((lookupT_isSome_iff src p).1 (by simp [hl])) hs
      by_cases hd : p ∈ dst.map Prod.fst
      · exact absurd (decide_eq_true hsrc) (by simpa using h2 p hd)
      · have hdst : lookupT dst p = none := by
          cases hl : lookupT dst p with
          | none => rfl
          | some c =>
            exact absurd ((lookupT_isSome_iff dst p).1 (by simp [hl])) hd
        rw [hsrc, hdst]
  · intro h
    rw [rsyncDryRun, List.append_eq_nil]
    constructor
    · rw [List.filter_eq_nil_iff]
      intro p _
      simp [h p]
    · rw [List.filter_eq_nil_iff]
      intro p hp
      have hsome : (lookupT dst p).isSome = true := (lookupT_isSome_iff dst p).2 hp
      rw [h p] at hsome
      simp only [decide_eq_true_eq]
      intro hc
      rw [hc] at hsome
      exact absurd hsome (by simp)

/-- C2: rsyncDirectory returns changed=true exactly when the destination tree
was not already identical to the source; when the dry-run pass reports no
differences it returns false and leaves the destination untouched, and when
it reports differences it performs the mirror pass, after which the
destination holds exactly the source entries, and returns true. -/
theorem rsyncDirectory_changed_iff (src dst : DirTree) :
    ((rsyncDirectory src dst).1 = true ↔ ¬ TreeIdentical src dst) ∧
    ((rsyncDirectory src dst).1 = false → (rsyncDirectory src dst).2 = dst) ∧
    ((rsyncDirectory src dst).1 = true →
      TreeIdentical src (rsyncDirectory src dst).2) := by
  by_cases h : rsyncDryRun src dst = []
  · have hid := (rsyncDryRun_nil_iff src dst).1 h
    simp [rsyncDirectory, h, hid]
  · have hnid : ¬ TreeIdentical src dst := fun hid =>
      h ((rsyncDryRun_nil_iff src dst).2 hid)
    refine ⟨?_, ?_, ?_⟩
    · simp [rsyncDirectory, h, hnid]
    · intro hfalse
      simp [rsyncDirectory, h] at hfalse
    · intro _
      simp only [rsyncDirectory, if_neg h]
      exact fun p => rfl

/-- Witness for C2: a destination differing from the source is mirrored and
reported changed; an identical destination is reported unchanged and left
untouched. -/
theorem rsyncDirectory_changed_iff_witness :
    ¬ TreeIdentical [("a", [1])] [] ∧
    TreeIdentical [("a", [1])] (rsyncDirectory [("a", [1])] []).2 ∧
    (rsyncDirectory [("a", [1])] [("a", [1])]).2 = [("a", [1])] :=
  ⟨(rsyncDirectory_changed_iff [("a", [1])] []).1.mp (by decide),
   (rsyncDirectory_changed_iff [("a", [1])] []).2.2 (by decide),
   (rsyncDirectory_changed_iff [("a", [1])] [("a", [1])]).2.1 (by decide)⟩

theorem processAgent_agentId (agent : AgentBinding) (aw : AgentWorld) :
    (processAgent agent aw).agentId = agent.id := by
  unfold processAgent
  split
  · rfl
  · split
    · rfl
    · split
      · rfl
      · split
        · rfl
        · rfl

theorem performBackup_changes_eq (w : BackupWorld)
    (hc : w.configExists = true) (hr : w.repoExists = true)
    (pw : String) (hp : w.password = some pw)
    (agents : List AgentBinding) (ha : w.agentsResult = .ok agents) :
    (performBackup w).changes =
      (agents.filter validateAgentBinding).map
        (fun a => processAgent a (w.perAgent a.id)) := by
  simp only [performBackup, hc, hr, hp, ha, Bool.not_true]
  cases w.commitErr <;> simp

/-- C5: whenever a backup run reaches its per-agent loop, the change list
holds exactly one record per valid agent, in roster order and regardless of
per-agent failures, so a failing agent never suppresses the records of its
siblings; moreover a loop body always yields a record carrying the id of its
agent, with the error field set exactly when some step of that agent failed
(and the change flags of the completed steps preserved). -/
theorem performBackup_one_change_per_agent (w : BackupWorld)
    (hc : w.configExists = true) (hr : w.repoExists = true)
    (pw : String) (hp : w.password = some pw)
    (agents : List AgentBinding) (ha : w.agentsResult = .ok agents) :
    (performBackup w).changes.map (fun c => c.agentId) =
      (agents.filter validateAgentBinding).map (fun a => a.id) ∧
    (∀ agent aw, (processAgent agent aw).agentId = agent.id ∧
      (processAgent agent aw).error.isSome = agentHasFailure aw) := by
  constructor
  · rw [performBackup_changes_eq w hc hr pw hp agents ha]
    simp [List.map_map, Function.comp_def, processAgent_agentId]
  · intro agent aw
    refine ⟨processAgent_agentId agent aw, ?_⟩
    unfold processAgent agentHasFailure
    cases hm : aw.metadataWriteErr with
    | some e => simp [hm]
    | none =>
      cases hw : aw.workspaceSync with
      | error e => simp [hm, hw]
      | ok wc =>
        cases hd : aw.agentDirSync with
        | error e => simp [hm, hw, hd]
        | ok ac =>
          cases he : encryptAgentFiles aw.encryptErr aw.files with
          | some e => simp [hm, hw, hd, he]
          | none => simp [hm, hw, hd, he]

/-- C6: when the per-agent loop completes but the git commit fails, the run
reports failure with the distinct commit-failure message (different from the
generic failure message of the outer catch), while still carrying the full
count of valid agents and the complete per-agent change list, and the commit
error detail. -/
theorem performBackup_commit_failure (w : BackupWorld)
    (hc : w.configExists = true) (hr : w.repoExists = true)
    (pw : String) (hp : w.password = some pw)
    (agents : List AgentBinding) (ha : w.agentsResult = .ok agents)
    (cerr : String) (hcm : w.commitErr = some cerr) :
    (performBackup w).success = false ∧
    (performBackup w).message = "Backup completed but git commit failed" ∧
    (performBackup w).message ≠ "Backup failed" ∧
    (performBackup w).agentsProcessed = (agents.filter validateAgentBinding).length ∧
    (performBackup w).changes =
      (agents.filter validateAgentBinding).map
        (fun a => processAgent a (w.perAgent a.id)) ∧
    (performBackup w).error = some cerr := by
  have hres : performBackup w =
      { success := false, message := "Backup completed but git commit failed",
        agentsProcessed := (agents.filter validateAgentBinding).length,
        changes := (agents.filter validateAgentBinding).map
          (fun a => processAgent a (w.perAgent a.id)),
        error := some cerr } := by
    simp [performBackup, hc, hr, hp, ha, hcm]
  rw [hres]
  exact ⟨rfl, rfl,
    (by decide : "Backup completed but git commit failed" ≠ "Backup failed"),
    rfl, rfl, rfl⟩

/-- Witness for C5 at a concrete world holding a succeeding agent, a failing
agent and an invalid binding. -/
theorem performBackup_one_change_per_agent_witness :
    (performBackup sampleBackupWorld).changes.map (fun c => c.agentId) =
      (([sampleAgentGood, sampleAgentBad, sampleAgentInvalid].filter
        validateAgentBinding).map (fun a => a.id)) :=
  (performBackup_one_change_per_agent sampleBackupWorld rfl rfl "pw" rfl
    [sampleAgentGood, sampleAgentBad, sampleAgentInvalid] rfl).1

/-- Witness for C6 at a concrete world whose commit step fails. -/
theorem performBackup_commit_failure_witness :
    (performBackup sampleBackupWorldCommitFail).message =
      "Backup completed but git commit failed" ∧
    (performBackup sampleBackupWorldCommitFail).error = some "git commit exited 1" :=
  ⟨(performBackup_commit_failure sampleBackupWorldCommitFail rfl rfl "pw" rfl
      [sampleAgentGood, sampleAgentBad, sampleAgentInvalid] rfl
      "git commit exited 1" rfl).2.1,
   (performBackup_commit_failure sampleBackupWorldCommitFail rfl rfl "pw" rfl
      [sampleAgentGood, sampleAgentBad, sampleAgentInvalid] rfl
      "git commit exited 1" rfl).2.2.2.2.2⟩

theorem restoreAgentDir_ops_sub (confirm : Bool) (a : ArchiveAgent)
    (m : AgentArchiveMetadata) (ops : List MirrorOp) (op : MirrorOp)
    (hop : op ∈ (restoreAgentDir confirm a m ops).ops) :
    op ∈ ops ∨ op.dest = m.agentDir := by
  unfold restoreAgentDir at hop
  split at hop
  · split at hop
    · simp only [AgentStep.ops] at hop
      exact Or.inl hop
    · split at hop
      · simp only [AgentStep.ops] at hop
        exact Or.inl hop
      · split at hop
        · simp only [AgentStep.ops] at hop
          exact Or.inl hop
        · simp only [AgentStep.ops] at hop
          rcases List.mem_append.1 hop with h | h
          · exact Or.inl h
          · simp only [List.mem_singleton] at h
            subst h
            exact Or.inr rfl
  · simp only [AgentStep.ops] at hop
    exact Or.inl hop

theorem restoreAgent_ops_from_metadata (confirm : Bool) (a : ArchiveAgent)
    (op : MirrorOp) (hop : op ∈ (restoreAgent confirm a).ops) :
    ∃ m, a.metadata = Except.ok m ∧
      (op.dest = m.workspace ∨ op.dest = m.agentDir) := by
  unfold restoreAgent at hop
  split at hop
  · simp [AgentStep.ops] at hop
  next m hm =>
    refine ⟨m, hm, ?_⟩
    split at hop
    · split at hop
      · simp [AgentStep.ops] at hop
      · rcases restoreAgentDir_ops_sub confirm a m _ op hop with h | h
        · simp only [List.mem_singleton] at h
          subst h
          exact Or.inl rfl
        · exact Or.inr h
    · rcases restoreAgentDir_ops_sub confirm a m _ op hop with h | h
      · simp at h
      · exact Or.inr h

theorem restoreLoop_trace_sub (confirm : Bool) (agents : List ArchiveAgent) :
    ∀ (restored : Nat) (errors : List String) (ops : List MirrorOp) (op : MirrorOp),
      op ∈ loopTrace (restoreLoop confirm agents restored errors ops) →
      op ∈ ops ∨ ∃ a, a ∈ agents ∧ op ∈ (restoreAgent confirm a).ops := by
  induction agents with
  | nil =>
    intro restored errors ops op hop
    simp only [restoreLoop, loopTrace] at hop
    exact Or.inl hop
  | cons a rest ih =>
    intro restored errors ops op hop
    simp only [restoreLoop] at hop
    cases hsa : restoreAgent confirm a with
    | ok o =>
      simp only [hsa] at hop
      rcases ih _ _ _ op hop with h | ⟨b, hb, hops⟩
      · rcases List.mem_append.1 h with h2 | h2
        · exact Or.inl h2
        · refine Or.inr ⟨a, List.mem_cons_self _ _, ?_⟩
          rw [hsa]
          exact h2
      · exact Or.inr ⟨b, List.mem_cons_of_mem _ hb, hops⟩
    | err e o =>
      simp only [hsa] at hop
      rcases ih _ _ _ op hop with h | ⟨b, hb, hops⟩
      · rcases List.mem_append.1 h with h2 | h2
        · exact Or.inl h2
        · refine Or.inr ⟨a, List.mem_cons_self _ _, ?_⟩
          rw [hsa]
          exact h2
      · exact Or.inr ⟨b, List.mem_cons_of_mem _ hb, hops⟩
    | authAbort o =>
      simp only [hsa, loopTrace] at hop
      rcases List.mem_append.1 hop with h2 | h2
      · exact Or.inl h2
      · refine Or.inr ⟨a, List.mem_cons_self _ _, ?_⟩
        rw [hsa]
        exact h2

/-- C7: the workspacePath argument of performRestore never influences the
result or the executed mirror operations, and the destination of every
executed mirror operation is the workspace or agentDir field of the
ArchiveMetadata successfully read for one of the archived agents. -/
theorem performRestore_metadata_destinations (w : RestoreWorld)
    (sha : Option String) (wp wp2 : String) (confirm : Bool) :
    performRestore w sha wp confirm = performRestore w sha wp2 confirm ∧
    ∀ op, op ∈ (performRestore w sha wp confirm).2 →
      ∃ a, a ∈ w.agents ∧ ∃ m, a.metadata = Except.ok m ∧
        (op.dest = m.workspace ∨ op.dest = m.agentDir) := by
  refine ⟨rfl, ?_⟩
  intro op hop
  simp only [performRestore] at hop
  split at hop
  · simp at hop
  · split at hop
    · simp at hop
    · split at hop
      · simp at hop
      · split at hop
        next r hloop =>
          have hop2 : op ∈ loopTrace (restoreLoop confirm w.agents 0 [] []) := by
            rw [hloop]
            exact hop
          rcases restoreLoop_trace_sub confirm w.agents 0 [] [] op hop2 with h | ⟨a, ha, hops⟩
          · simp at h
          · exact ⟨a, ha, restoreAgent_ops_from_metadata confirm a op hops⟩
        next restored errors ops hloop =>
          have hop2 : op ∈ loopTrace (restoreLoop confirm w.agents 0 [] []) := by
            rw [hloop]
            simp only [loopTrace]
            split at hop <;> exact hop
          rcases restoreLoop_trace_sub confirm w.agents 0 [] [] op hop2 with h | ⟨a, ha, hops⟩
          · simp at h
          · exact ⟨a, ha, restoreAgent_ops_from_metadata confirm a op hops⟩

theorem restoreLoop_abort (a : ArchiveAgent) (ha : agentAborts false a = true)
    (post : List ArchiveAgent) :
    ∀ (pre : List ArchiveAgent), (∀ b ∈ pre, agentAborts false b = false) →
    ∀ (restored : Nat) (errors : List String) (ops : List MirrorOp),
      restoreLoop false (pre ++ a :: post) restored errors ops =
        .inl (authWarnResult,
          ops ++ pre.flatMap (fun b => (restoreAgent false b).ops) ++
            (restoreAgent false a).ops) := by
  intro pre
  induction pre with
  | nil =>
    intro _ restored errors ops
    simp only [List.nil_append, restoreLoop]
    cases hsa : restoreAgent false a with
    | ok o => simp [agentAborts, hsa] at ha
    | err e o => simp [agentAborts, hsa] at ha
    | authAbort o => simp [hsa, AgentStep.ops]
  | cons b pre ih =>
    intro hpre restored errors ops
    have hb : agentAborts false b = false := hpre b (List.mem_cons_self _ _)
    have hpre2 : ∀ c ∈ pre, agentAborts false c = false :=
      fun c hc => hpre c (List.mem_cons_of_mem _ hc)
    simp only [List.cons_append, restoreLoop]
    cases hsb : restoreAgent false b with
    | ok o =>
      simp only [hsb, List.append_eq]
      rw [ih hpre2]
      simp [hsb, AgentStep.ops, List.flatMap_cons, List.append_assoc]
    | err e o =>
      simp only [hsb, List.append_eq]
      rw [ih hpre2]
      simp [hsb, AgentStep.ops, List.flatMap_cons, List.append_assoc]
    | authAbort o => simp [agentAborts, hsb] at hb

/-- C1 (amended): when a restore run with confirmAuthOverwrite=false reaches
the auth-profiles guard for the first triggering agent, the whole run returns
immediately with the warning result: success=false, authOverwriteWarning set,
reported agentsRestored equal to zero, and no further agent is processed or
mirrored — the trace ends with the triggering iteration.  However the trace
also shows that the agents processed earlier in iteration order, and the
workspace of the triggering agent itself, have already been mirrored before
the guard fires. -/
theorem performRestore_auth_abort_global (w : RestoreWorld)
    (hr : w.repoExists = true) (harch : w.archivesExists = true)
    (pw : String) (hp : w.password = some pw)
    (pre : List ArchiveAgent) (a : ArchiveAgent) (post : List ArchiveAgent)
    (hag : w.agents = pre ++ a :: post)
    (hpre : ∀ b ∈ pre, agentAborts false b = false)
    (ha : agentAborts false a = true)
    (sha : Option String) (wp : String) :
    (performRestore w sha wp false).1 = authWarnResult ∧
    (performRestore w sha wp false).1.success = false ∧
    (performRestore w sha wp false).1.authOverwriteWarning = some true ∧
    (performRestore w sha wp false).1.agentsRestored = 0 ∧
    (performRestore w sha wp false).2 =
      pre.flatMap (fun b => (restoreAgent false b).ops) ++
        (restoreAgent false a).ops := by
  have hloop := restoreLoop_abort a ha post pre hpre 0 [] []
  have hmain : performRestore w sha wp false =
      (authWarnResult,
        pre.flatMap (fun b => (restoreAgent false b).ops) ++
          (restoreAgent false a).ops) := by
    simp only [performRestore, hr, harch, hp, Bool.not_true, Bool.false_eq_true,
      if_false, hag, hloop, List.nil_append]
  rw [hmain]
  exact ⟨rfl, rfl, rfl, rfl, rfl⟩

/-- Counterexample to C1 as stated: against cexRestoreWorld with
confirmAuthOverwrite=false the run does return the warning result with
reported agentsRestored=0, but the executed mirror trace is not empty — the
workspace and agentDir of the first agent and the workspace of the
triggering agent were already mirrored to their destinations before the
guard fired, contradicting that no agent workspace or agent directory is
mirrored. -/
theorem performRestore_auth_abort_counterexample :
    (performRestore cexRestoreWorld none "/ws" false).1.authOverwriteWarning =
      some true ∧
    (performRestore cexRestoreWorld none "/ws" false).1.agentsRestored = 0 ∧
    (performRestore cexRestoreWorld none "/ws" false).2 =
      [MirrorOp.mk "archives/clean/workspace" "/dest/clean-w",
       MirrorOp.mk "archives/clean/agentDir" "/dest/clean-a",
       MirrorOp.mk "archives/auth/workspace" "/dest/auth-w"] ∧
    (performRestore cexRestoreWorld none "/ws" false).2 ≠ [] :=
  ⟨rfl, rfl, rfl, by decide⟩

/-- Witness for the amended C1 at the concrete world: the run aborts with the
warning result and the trace stops at the triggering iteration. -/
theorem performRestore_auth_abort_global_witness :
    (performRestore cexRestoreWorld none "/ws" false).1 = authWarnResult ∧
    (performRestore cexRestoreWorld none "/ws" false).2 =
      [agentClean].flatMap (fun b => (restoreAgent false b).ops) ++
        (restoreAgent false agentAuth).ops :=
  ⟨(performRestore_auth_abort_global cexRestoreWorld rfl rfl "pw" rfl
      [agentClean] agentAuth [agentPost] rfl (by decide) (by decide) none "/ws").1,
   (performRestore_auth_abort_global cexRestoreWorld rfl rfl "pw" rfl
      [agentClean] agentAuth [agentPost] rfl (by decide) (by decide) none "/ws").2.2.2.2⟩

/-- Witness for C7 at the concrete world: the first traced mirror operation
writes to the workspace path recorded in the metadata of the first agent. -/
theorem performRestore_metadata_destinations_witness :
    ∃ a, a ∈ cexRestoreWorld.agents ∧ ∃ m, a.metadata = Except.ok m ∧
      ((MirrorOp.mk "archives/clean/workspace" "/dest/clean-w").dest =
        m.workspace ∨
       (MirrorOp.mk "archives/clean/workspace" "/dest/clean-w").dest =
        m.agentDir) :=
  (performRestore_metadata_destinations cexRestoreWorld none "/ws" "/other" false).2
    (MirrorOp.mk "archives/clean/workspace" "/dest/clean-w") (by decide)
